import Mathlib

/-!
Verification of the InterviewHub frontend (Next.js/TypeScript) against its
specification.  The data model and operations below are shallow embeddings of
the TypeScript source under src/frontend; the backend (FastAPI, not part of
the source tree) is modelled from the specification where a claim depends on
it, and each such definition is marked in its doc comment.
-/

namespace InterviewHub

/-- Two-state status enum of a todo item, from the TypeScript union type
literal in src/frontend/lib/api.ts (status: "todo" | "done"). -/
inductive Status where
  | todo
  | done
deriving DecidableEq, Repr

/-- Priority levels of a todo item ("high" | "med" | "low"). -/
inductive Priority where
  | high
  | med
  | low
deriving DecidableEq, Repr

/-- TodoItem interface from src/frontend/lib/api.ts. -/
structure TodoItem where
  id : String
  group_key : String
  text : String
  status : Status
  priority : Option Priority
  estimate_minutes : Option Nat
  rationale : Option String
deriving DecidableEq, Repr

/-- ChecklistGroup interface from src/frontend/lib/api.ts. -/
structure ChecklistGroup where
  key : String
  label : String
  items : List TodoItem
deriving DecidableEq, Repr

/-- ChecklistStructure interface from src/frontend/lib/api.ts. -/
structure ChecklistStructure where
  title : String
  event_type : String
  assumptions : List String
  groups : List ChecklistGroup
  next_3_actions : List String
deriving DecidableEq, Repr

/-- The groups actually rendered by the Checklist component: the map over
checklist.groups in src/frontend/components/checklist.tsx returns null for a
group whose items array is empty, so exactly the groups with a nonempty item
list produce output. -/
def renderedGroups (c : ChecklistStructure) : List ChecklistGroup :=
  c.groups.filter (fun g => g.items.length != 0)

/-- Guard on the Test Knowledge button in checklist.tsx: the button is
rendered for an item exactly when the owning group's key is "skills" and the
item's status is not "done". -/
def offersTestKnowledge (g : ChecklistGroup) (i : TodoItem) : Bool :=
  g.key == "skills" && i.status != Status.done

/-- All items for which the checklist view renders a Test Knowledge button:
for every rendered group, the items passing the offersTestKnowledge guard. -/
def testButtonItems (c : ChecklistStructure) : List TodoItem :=
  (renderedGroups c).flatMap (fun g => g.items.filter (offersTestKnowledge g))

/-- The new status computed by handleToggleTodo in checklist.tsx:
item.status === "done" ? "todo" : "done". -/
def toggledStatus (s : Status) : Status :=
  match s with
  | Status.done => Status.todo
  | Status.todo => Status.done

/-- Per-item part of the local state update in handleToggleTodo: an item with
the toggled item's id gets the new status, every other item is returned
unchanged. -/
def toggleItemFn (item : TodoItem) (i : TodoItem) : TodoItem :=
  if i.id == item.id then { i with status := toggledStatus item.status } else i

/-- The local state update performed by handleToggleTodo in checklist.tsx
after a successful updateTodo call: groups are mapped, and within each group
items are mapped through toggleItemFn. -/
def applyToggle (c : ChecklistStructure) (item : TodoItem) : ChecklistStructure :=
  { c with groups := c.groups.map (fun g => { g with items := g.items.map (toggleItemFn item) }) }

/-- The wire call issued by handleToggleTodo: updateTodo(sessionId, item.id,
\x7b status: newStatus \x7d), represented as the pair of the item id and the
new status. -/
def manualToggleCall (item : TodoItem) : String × Status :=
  (item.id, toggledStatus item.status)

/-- Flattened item list used by the onComplete handler in checklist.tsx:
checklist.groups.flatMap(g => g.items). -/
def allItems (c : ChecklistStructure) : List TodoItem :=
  c.groups.flatMap (fun g => g.items)

/-- The updateTodo calls issued by the onComplete handler passed to the
InterviewModal in checklist.tsx: if passed, the item with the interview's todo
id is looked up in the flattened item list, and handleToggleTodo is invoked on
it only when it exists and its status is not "done"; handleToggleTodo issues
exactly one updateTodo call. -/
def onCompleteCalls (passed : Bool) (c : ChecklistStructure) (todoId : String) :
    List (String × Status) :=
  if passed then
    match (allItems c).find? (fun i => i.id == todoId) with
    | some item => if item.status != Status.done then [manualToggleCall item] else []
    | none => []
  else []

/-- InterviewQuestion interface from src/frontend/lib/api.ts. -/
structure InterviewQuestion where
  question : String
  question_number : Nat
  total_questions : Nat
deriving DecidableEq, Repr

/-- InterviewResponse interface from src/frontend/lib/api.ts; the rating is a
number on a 0-10 scale, modelled as a rational. -/
structure InterviewResponse where
  question : Option InterviewQuestion
  feedback : Option String
  is_complete : Bool
  overall_feedback : Option String
  rating : Option ℚ
  passed : Option Bool
deriving DecidableEq, Repr

/-- The updateTodo calls triggered by handleSubmitAnswer in
interview-modal.tsx when an answer response arrives: onComplete is invoked
only when the response is complete, both passed and rating are present, and
passed is true; onComplete then behaves as onCompleteCalls. -/
def answerCompletionCalls (r : InterviewResponse) (c : ChecklistStructure) (todoId : String) :
    List (String × Status) :=
  if r.is_complete then
    match r.passed, r.rating with
    | some p, some _ => if p then onCompleteCalls p c todoId else []
    | _, _ => []
  else []

/-- Character class of the UUID regex used in interview-modal.tsx and
checklist.tsx: positions 8, 13, 18, 23 must hold a hyphen, every other
position a (case-insensitive) hexadecimal digit. -/
def uuidRegexChar (i : Nat) (ch : Char) : Bool :=
  if i == 8 || i == 13 || i == 18 || i == 23 then ch == '-'
  else ch.isDigit || ('a' ≤ ch && ch ≤ 'f') || ('A' ≤ ch && ch ≤ 'F')

/-- Test of the UUID regex from the source
(8-4-4-4-12 hexadecimal groups, 36 characters in total). -/
def isUuidShaped (s : String) : Bool :=
  s.length == 36 && (s.toList.enum.all (fun p => uuidRegexChar p.1 p.2))

/-- Outcome of handleStart in interview-modal.tsx: either the start is
refused client-side (alert shown, modal closed, no request sent, hence no
sub-dialogue state created), or the startInterview request is dispatched. -/
inductive StartOutcome where
  | refused
  | requested (sessionId : String) (todoId : String) (todoText : String)
deriving DecidableEq, Repr

/-- handleStart from interview-modal.tsx: the todo id is tested against the
UUID regex; on failure the start is refused with no request sent, otherwise
startInterview(sessionId, todoId, todoText) is dispatched. -/
def handleStart (sessionId : String) (todoId : String) (todoText : String) : StartOutcome :=
  if !(isUuidShaped todoId) then StartOutcome.refused
  else StartOutcome.requested sessionId todoId todoText

/-- Render guard for the answer form in interview-modal.tsx: the question and
answer input block is rendered only when a current question exists and the
interview is not complete. -/
def answerFormRendered (currentQuestion : Option InterviewQuestion) (isComplete : Bool) : Bool :=
  currentQuestion.isSome && !isComplete

/-- Modelled from the spec: the fixed total question count of the
knowledge-test sub-dialogue (backend, absent from src/); the spec fixes
total = 4. -/
def interviewTotal : Nat := 4

/-- Modelled from the spec: the per-(session, item) sub-dialogue state of the
knowledge-test state machine (backend, absent from src/): the number of
answered questions and the completion flag. -/
structure SubDialogue where
  answered : Nat
  isComplete : Bool
deriving DecidableEq, Repr

/-- Modelled from the spec: a freshly started sub-dialogue, entering
asking(1) with no questions answered yet. -/
def subDialogueStart : SubDialogue :=
  { answered := 0, isComplete := false }

/-- Modelled from the spec: one answer transition of the knowledge-test
state machine (backend, absent from src/).  Answering a completed
sub-dialogue fails with InvalidState; otherwise the answer count advances,
and either a next question (its number) is produced when fewer than the
fixed total have been answered, or the sub-dialogue completes. -/
def answerTurn (d : SubDialogue) : Except String (SubDialogue × Option Nat) :=
  if d.isComplete then Except.error ("InvalidState")
  else
    let n := d.answered + 1
    if n < interviewTotal then Except.ok ({ answered := n, isComplete := false }, some (n + 1))
    else Except.ok ({ answered := n, isComplete := true }, none)

/-- Modelled from the spec: running the sub-dialogue from a fresh start
through a given number of answer turns, collecting the question numbers
produced; the start itself produces question 1. -/
def runAnswers : Nat → Except String (SubDialogue × List Nat)
  | 0 => Except.ok (subDialogueStart, [1])
  | n + 1 =>
    match runAnswers n with
    | Except.error e => Except.error e
    | Except.ok (d, qs) =>
      match answerTurn d with
      | Except.error e => Except.error e
      | Except.ok (d2, q) => Except.ok (d2, qs ++ q.toList)

/-- One transcript message, from the message arrays in
src/frontend/lib/api.ts. -/
structure ChatMessage where
  role : String
  content : String
deriving DecidableEq, Repr

/-- The part of the session page state (src/frontend/app/session/[id]/page.tsx)
relevant to sending messages: the transcript and the optional checklist. -/
structure SessionState where
  messages : List ChatMessage
  checklist : Option ChecklistStructure
deriving DecidableEq, Repr

/-- Optimistic update in handleSend: the user message is appended to the
transcript before the request is sent. -/
def appendOptimistic (s : SessionState) (m : ChatMessage) : SessionState :=
  { s with messages := s.messages ++ [m] }

/-- Error path of handleSend: on failure the optimistic message is removed
again via messages.slice(0, -1). -/
def rollbackOptimistic (s : SessionState) : SessionState :=
  { s with messages := s.messages.dropLast }

/-- The net effect of handleSend when the sendMessage request fails: the
optimistic append followed by the rollback in the catch branch; the checklist
field is never touched on this path. -/
def handleSendFailure (s : SessionState) (m : ChatMessage) : SessionState :=
  rollbackOptimistic (appendOptimistic s m)

/-- Render guard on the chat input in the session page: the input form is
rendered only when session.checklist is null. -/
def chatInputRendered (s : SessionState) : Bool :=
  s.checklist.isNone

/-- SendMessageResponse interface from src/frontend/lib/api.ts: the response
to a send-message request, with an optional checklist. -/
structure SendResponse where
  message : ChatMessage
  messages : List ChatMessage
  checklist : Option ChecklistStructure
deriving DecidableEq, Repr

/-- The success-path state update of handleSend: the transcript is replaced
by the response's message array, and the checklist becomes
response.checklist || prevSession.checklist, i.e. the previous checklist is
kept whenever the response carries none. -/
def applySendResponse (s : SessionState) (r : SendResponse) : SessionState :=
  { s with
      messages := r.messages,
      checklist := match r.checklist with
        | some c => some c
        | none => s.checklist }

/-- Modelled from the spec: the checklist validator (section 4.1) lives in
the backend (absent from src/); per the spec, next_3_actions is truncated to
at most 3 entries and never padded. -/
def validateNextActions (raw : List String) : List String :=
  raw.take 3

/-- Modelled from the spec: text normalization used by the regeneration
carry-forward reconciliation (backend, absent from src/); normalization is
modelled as trimming surrounding whitespace and lowercasing. -/
def normalizeText (s : String) : String :=
  s.trim.toLower

/-- Modelled from the spec: the carry-forward reconciliation pass applied on
checklist regeneration (backend, absent from src/): new items are indexed by
normalized text, and a new item whose normalized text matches a done old
item's normalized text has done status copied onto it. -/
def carryForward (oldItems newItems : List TodoItem) : List TodoItem :=
  newItems.map (fun n =>
    if oldItems.any (fun o =>
        o.status == Status.done && normalizeText o.text == normalizeText n.text)
    then { n with status := Status.done }
    else n)

/-- Example done item used to exercise carry-forward. -/
def starOld : TodoItem :=
  { id := "11111111-1111-4111-8111-111111111111"
    group_key := "evidence"
    text := "Write STAR stories"
    status := Status.done
    priority := some Priority.high
    estimate_minutes := some 60
    rationale := none }

/-- Example regenerated item with matching text, used to exercise
carry-forward. -/
def starNew : TodoItem :=
  { id := "22222222-2222-4222-8222-222222222222"
    group_key := "evidence"
    text := "Write STAR stories"
    status := Status.todo
    priority := some Priority.med
    estimate_minutes := some 45
    rationale := some ("Behavioral round")
  }

/-- Example skills item used to exercise toggling and interview completion. -/
def hooksItem : TodoItem :=
  { id := "123e4567-e89b-42d3-a456-426614174000"
    group_key := "skills"
    text := "Review React hooks"
    status := Status.todo
    priority := some Priority.high
    estimate_minutes := some 30
    rationale := none }

/-- Example checklist holding the skills item. -/
def exampleChecklist : ChecklistStructure :=
  { title := "Frontend interview prep"
    event_type := "interview"
    assumptions := []
    groups := [{ key := "skills", label := "Skills / Knowledge Prep", items := [hooksItem] }]
    next_3_actions := [] }

/-- Example completed-and-passed interview answer response. -/
def passedResponse : InterviewResponse :=
  { question := none
    feedback := none
    is_complete := true
    overall_feedback := some ("Solid understanding")
    rating := some 8
    passed := some true }

/-- C9: a group is rendered by the checklist view exactly when it belongs to
the checklist and its item list is nonempty; empty groups are suppressed from
presentation. -/
theorem empty_groups_suppressed (c : ChecklistStructure) (g : ChecklistGroup) :
    g ∈ renderedGroups c ↔ g ∈ c.groups ∧ g.items ≠ [] := by
  simp [renderedGroups, List.mem_filter, List.length_eq_zero]

/-- C10: the Test Knowledge action is offered exactly for the items of a
checklist that sit in a group whose key is "skills" and whose status is not
done; no other item offers it. -/
theorem testKnowledge_only_skills_not_done (c : ChecklistStructure) (i : TodoItem) :
    i ∈ testButtonItems c ↔
      ∃ g, g ∈ c.groups ∧ i ∈ g.items ∧ g.key = "skills" ∧ i.status ≠ Status.done := by
  simp only [testButtonItems, List.mem_flatMap, List.mem_filter, offersTestKnowledge,
    Bool.and_eq_true, beq_iff_eq, bne_iff_ne, ne_eq]
  constructor
  · rintro ⟨g, hg, hi, hk, hs⟩
    exact ⟨g, ((empty_groups_suppressed c g).mp hg).1, hi, hk, hs⟩
  · rintro ⟨g, hg, hi, hk, hs⟩
    refine ⟨g, (empty_groups_suppressed c g).mpr ⟨hg, ?_⟩, hi, hk, hs⟩
    exact List.ne_nil_of_mem hi

/-- C6: when the sendMessage request fails, the session page state is restored
exactly to its pre-call value: the optimistically appended user message is
removed again and the checklist is untouched. -/
theorem sendFailure_restores_state (s : SessionState) (m : ChatMessage) :
    handleSendFailure s m = s := by
  cases s
  simp [handleSendFailure, rollbackOptimistic, appendOptimistic]

/-- C3: starting a knowledge test refuses every todo id that is not in
canonical UUID text form (no request dispatched, hence no sub-dialogue state
created), and dispatches the start request for every UUID-shaped id. -/
theorem startInterview_uuid_guard (sid tid ttext : String) :
    (isUuidShaped tid = false → handleStart sid tid ttext = StartOutcome.refused) ∧
    (isUuidShaped tid = true → handleStart sid tid ttext = StartOutcome.requested sid tid ttext) := by
  constructor <;> intro h <;> simp [handleStart, h]

/-- Witness for C3 at concrete inputs: the id "not-a-uuid" is refused while a
canonical UUID id leads to a dispatched start request. -/
theorem startInterview_uuid_guard_witness :
    handleStart ("s1") ("not-a-uuid") ("React hooks") = StartOutcome.refused ∧
    handleStart ("s1") ("123e4567-e89b-42d3-a456-426614174000") ("React hooks") =
      StartOutcome.requested ("s1") ("123e4567-e89b-42d3-a456-426614174000") ("React hooks") := by
  constructor
  · exact (startInterview_uuid_guard ("s1") ("not-a-uuid") ("React hooks")).1 (by decide)
  · exact (startInterview_uuid_guard ("s1") ("123e4567-e89b-42d3-a456-426614174000")
      ("React hooks")).2 (by decide)

/-- C7: for a session whose checklist is non-null, the chat input is not
rendered, and applying any send-message response never clears the checklist,
so the session keeps a checklist. -/
theorem ready_session_no_chat_input (s : SessionState) (r : SendResponse)
    (h : s.checklist.isSome = true) :
    chatInputRendered s = false ∧ (applySendResponse s r).checklist.isSome = true := by
  constructor
  · cases hc : s.checklist <;> simp_all [chatInputRendered]
  · cases hr : r.checklist <;> simp_all [applySendResponse]

/-- Witness for C7: a concrete ready session with a concrete response
carrying no checklist keeps its checklist and renders no chat input. -/
theorem ready_session_no_chat_input_witness :
    chatInputRendered { messages := [], checklist := some exampleChecklist } = false ∧
    (applySendResponse { messages := [], checklist := some exampleChecklist }
      { message := { role := "user", content := "hi" }, messages := [], checklist := none
      }).checklist.isSome = true :=
  ready_session_no_chat_input
    { messages := [], checklist := some exampleChecklist }
    { message := { role := "user", content := "hi" }, messages := [], checklist := none }
    (by rfl)

/-- C8: the validated next_3_actions list has at most 3 entries, a list of at
most 3 entries passes through unchanged (never padded), and a longer list is
truncated to exactly 3. -/
theorem nextActions_truncated_to_three (raw : List String) :
    (validateNextActions raw).length ≤ 3 ∧
    (raw.length ≤ 3 → validateNextActions raw = raw) ∧
    (3 < raw.length → (validateNextActions raw).length = 3) := by
  refine ⟨?_, ?_, ?_⟩
  · simp [validateNextActions]
  · intro h
    simp [validateNextActions, List.take_of_length_le h]
  · intro h
    simp [validateNextActions]
    omega

/-- Witness for C8: a two-entry list is returned unchanged by validation. -/
theorem nextActions_truncated_to_three_witness :
    validateNextActions ["Read the JD", "Book a mock"] = ["Read the JD", "Book a mock"] :=
  (nextActions_truncated_to_three ["Read the JD", "Book a mock"]).2.1 (by decide)

/-- Toggling an item to done and then toggling the updated item back leaves
any single item unchanged, provided every item carrying the toggled id is
currently in the todo state. -/
theorem toggleItemFn_roundtrip (it : TodoItem) (hit : it.status = Status.todo)
    (i : TodoItem) (hi : i.id = it.id → i.status = Status.todo) :
    toggleItemFn { it with status := Status.done } (toggleItemFn it i) = i := by
  by_cases hid : i.id = it.id
  · have hstat := hi hid
    cases i
    simp_all [toggleItemFn, toggledStatus]
  · cases i
    simp_all [toggleItemFn]

/-- C5: toggling a todo item to done and then back to todo restores the whole
checklist exactly - the item's text, priority, estimate, rationale, id and
group membership are unchanged and no other item in any group is modified -
provided every item carrying the toggled id starts out in the todo state. -/
theorem toggle_roundtrip_restores (c : ChecklistStructure) (it : TodoItem)
    (hit : it.status = Status.todo)
    (h : ∀ g ∈ c.groups, ∀ i ∈ g.items, i.id = it.id → i.status = Status.todo) :
    applyToggle (applyToggle c it) { it with status := Status.done } = c := by
  cases c with
  | mk title event_type assumptions groups next_3_actions =>
    simp only [applyToggle, List.map_map, ChecklistStructure.mk.injEq, true_and, and_true]
    have hgroups : ∀ g ∈ groups,
        ((fun g => { g with items := g.items.map (toggleItemFn { it with status := Status.done }) }) ∘
          (fun g => { g with items := g.items.map (toggleItemFn it) })) g = g := by
      intro g hg
      cases g with
      | mk key label items =>
        simp only [Function.comp_apply, List.map_map, ChecklistGroup.mk.injEq, true_and]
        have hitems : ∀ i ∈ items,
            (toggleItemFn { it with status := Status.done } ∘ toggleItemFn it) i = i := by
          intro i hi
          exact toggleItemFn_roundtrip it hit i (h _ hg i hi)
        calc items.map (toggleItemFn { it with status := Status.done } ∘ toggleItemFn it)
            = items.map id := List.map_congr_left hitems
          _ = items := List.map_id items
    calc groups.map ((fun g => { g with items := g.items.map (toggleItemFn { it with status := Status.done }) }) ∘
          (fun g => { g with items := g.items.map (toggleItemFn it) }))
        = groups.map id := List.map_congr_left hgroups
      _ = groups := List.map_id groups

/-- Witness for C5: toggling the concrete skills item of the example
checklist to done and back restores the example checklist exactly. -/
theorem toggle_roundtrip_restores_witness :
    applyToggle (applyToggle exampleChecklist hooksItem)
      { hooksItem with status := Status.done } = exampleChecklist :=
  toggle_roundtrip_restores exampleChecklist hooksItem (by rfl) (by decide)

/-- C1: carry-forward on regeneration - for every old item marked done and
every newly generated item whose normalized text matches it, the regenerated
checklist contains that new item with status done. -/
theorem carryForward_preserves_done (oldItems newItems : List TodoItem) (o n : TodoItem)
    (ho : o ∈ oldItems) (hd : o.status = Status.done) (hn : n ∈ newItems)
    (ht : normalizeText o.text = normalizeText n.text) :
    { n with status := Status.done } ∈ carryForward oldItems newItems := by
  have hcond : (oldItems.any fun o2 =>
      o2.status == Status.done && normalizeText o2.text == normalizeText n.text) = true := by
    refine List.any_eq_true.mpr ⟨o, ho, ?_⟩
    simp [hd, ht]
  unfold carryForward
  refine List.mem_map.mpr ⟨n, hn, ?_⟩
  rw [if_pos hcond]

/-- Witness for C1: the done item "Write STAR stories" carries its done
status onto the regenerated item with the same text. -/
theorem carryForward_preserves_done_witness :
    { starNew with status := Status.done } ∈ carryForward [starOld] [starNew] :=
  carryForward_preserves_done [starOld] [starNew] starOld starNew (by decide) (by rfl)
    (by decide) (by rfl)

/-- C2: for a completed knowledge-test answer response with pass = true
(rating present), the completion handler issues exactly one updateTodo call -
the same call shape issued by a manual toggle - setting the linked item's
status to done when that item is not yet done, issues no call at all when the
item is already done, and in every case issues at most one call. -/
theorem knowledgeTest_completion_updates_once (r : InterviewResponse)
    (c : ChecklistStructure) (todoId : String) (item : TodoItem)
    (hc : r.is_complete = true) (hp : r.passed = some true) (hq : r.rating.isSome = true)
    (hfind : (allItems c).find? (fun i => i.id == todoId) = some item) :
    (item.status ≠ Status.done → answerCompletionCalls r c todoId = [(todoId, Status.done)]) ∧
    (item.status = Status.done → answerCompletionCalls r c todoId = []) ∧
    (answerCompletionCalls r c todoId).length ≤ 1 := by
  obtain ⟨q, hqq⟩ := Option.isSome_iff_exists.mp hq
  have hid : item.id = todoId := by
    have := List.find?_some hfind
    simpa using this
  have hnotdone : ∀ _ : item.status ≠ Status.done,
      answerCompletionCalls r c todoId = [(todoId, Status.done)] := by
    intro hs
    have hts : toggledStatus item.status = Status.done := by
      cases hstat : item.status
      · rfl
      · exact absurd hstat hs
    simp [answerCompletionCalls, hc, hp, hqq, onCompleteCalls, hfind, manualToggleCall,
      hid, hts, hs]
  have hdone : item.status = Status.done → answerCompletionCalls r c todoId = [] := by
    intro hs
    simp [answerCompletionCalls, hc, hp, hqq, onCompleteCalls, hfind, hs]
  refine ⟨hnotdone, hdone, ?_⟩
  by_cases hs : item.status = Status.done
  · simp [hdone hs]
  · simp [hnotdone hs]

/-- Witness for C2: the concrete passed response marks the concrete todo
skills item done through exactly one update call. -/
theorem knowledgeTest_completion_updates_once_witness :
    answerCompletionCalls passedResponse exampleChecklist
      ("123e4567-e89b-42d3-a456-426614174000") =
      [("123e4567-e89b-42d3-a456-426614174000", Status.done)] :=
  (knowledgeTest_completion_updates_once passedResponse exampleChecklist
      ("123e4567-e89b-42d3-a456-426614174000") hooksItem
      (by rfl) (by rfl) (by rfl) (by rfl)).1 (by decide)

/-- Once the run of a knowledge-test sub-dialogue has failed, every longer
run fails the same way. -/
theorem runAnswers_error_persists (m : Nat) :
    runAnswers (5 + m) = Except.error ("InvalidState") := by
  induction m with
  | zero => rfl
  | succ k ih =>
    have h55 : 5 + (k + 1) = (5 + k) + 1 := by omega
    rw [h55]
    simp [runAnswers, ih]

/-- C4: the knowledge-test sub-dialogue asks questions 1 through 4 and no
others - after n < 4 answered questions it is not complete and has produced
questions 1 .. n+1, after exactly 4 answered questions it is complete with
precisely the four questions produced, a 5th (or any later) answer fails with
InvalidState so no 5th question is ever produced, and the modal renders no
answer form once the interview is complete. -/
theorem knowledgeTest_terminates_after_four :
    (∀ n, n < 4 →
      runAnswers n =
        Except.ok ({ answered := n, isComplete := false }, List.range' 1 (n + 1))) ∧
    runAnswers 4 = Except.ok ({ answered := 4, isComplete := true }, [1, 2, 3, 4]) ∧
    (∀ m, runAnswers (5 + m) = Except.error ("InvalidState")) ∧
    (∀ q, answerFormRendered (some q) true = false) := by
  refine ⟨?_, by rfl, runAnswers_error_persists, fun q => rfl⟩
  intro n hn
  interval_cases n <;> rfl

/-- Witness for C4: after two answered questions the sub-dialogue is not
complete and has produced questions 1, 2, 3. -/
theorem knowledgeTest_terminates_after_four_witness :
    runAnswers 2 = Except.ok ({ answered := 2, isComplete := false }, [1, 2, 3]) :=
  (knowledgeTest_terminates_after_four.1 2 (by decide)).trans rfl

end InterviewHub
